import Mathlib

/-!
# Shallow embedding of `Initial/go-server/main.go`

The program is one function, `main`, which calls five library operations in
sequence:

```
godotenv.Load()
r := gin.Default()
r.GET("/", func(c *gin.Context) { c.JSON(200, gin.H{"message": "Hi, Gin server is running!"}) })
port := os.Getenv("PORT")
r.Run(":" + port)
```

`main` and the handler closure are translated statement by statement.  The
library operations they call (godotenv, gin, os, and net/http underneath gin)
are not part of the repository; each is given as a small state-passing function
over an explicit process state, and whatever the outside world decides (the
contents of the `.env` file, whether the listener can be opened) is an input of
type `World`.
Every library operation appends itself to a log of calls, so that the order and
number of the calls `main` makes can be stated.
-/

namespace GoServer

/-! ## Process state -/

/-- Process environment: variable name to value, `none` when the variable is unset. -/
abbrev Env := String → Option String

/-- Key-value pairs parsed from an environment file (a Go `map[string]string`). -/
abbrev EnvMap := String → Option String

/-- Library operations called by `main`, as they appear in the call log. -/
inductive Call where
  | godotenvLoad : Call
  | ginDefault : Call
  | routerGET (relativePath : String) : Call
  | osGetenv (key : String) : Call
  | engineRun (addr : String) : Call
  deriving DecidableEq, Repr

/-- State of the running process that `main` threads through its statements. -/
structure Proc where
  env : Env
  calls : List Call

/-- Everything outside the program that its run depends on. -/
structure World where
  /-- Environment the process is started with. -/
  env : Env
  /-- Result of reading and parsing the local `.env` file: an error (file absent,
  unreadable or malformed) or the pairs it defines. -/
  dotenv : Except String EnvMap
  /-- Result of listening and serving on an address: `some err` when the call
  returns the error `err`, `none` when it keeps serving and never returns. -/
  listen : String → Option String

/-! ## HTTP data -/

/-- An HTTP request that net/http has read and accepted, as it hands it to a
handler.  Input that net/http rejects while reading it (answered by net/http
itself, with 400 for a malformed request) never becomes a `Request`. -/
structure Request where
  Method : String
  Path : String
  RawQuery : String
  Header : List (String × String)
  Body : String
  deriving DecidableEq, Repr

/-- Values that can be stored in a `gin.H`. -/
inductive Value where
  | str (s : String) : Value
  | num (n : Int) : Value
  | bool (b : Bool) : Value
  | null : Value
  deriving DecidableEq, Repr

/-- The type `gin.H` (`map[string]any`): a JSON object given by its keys and values. -/
abbrev H := List (String × Value)

/-- Payload of a response. -/
inductive Payload where
  | empty : Payload
  | json (obj : H) : Payload
  | text (s : String) : Payload
  /-- The notice written by `http.Redirect`; the target is in the `Location`
  header, which `Response` does not record. -/
  | redirect : Payload
  deriving DecidableEq, Repr

/-- What has been written to the response of one request. -/
structure Response where
  status : Nat
  contentType : Option String
  body : Payload
  deriving DecidableEq, Repr

/-- The type `gin.Context`: the request being served, its response writer, and
whether the writer counts the header as written (`c.Writer.Written()`). -/
structure Context where
  Request : Request
  Writer : Response
  Written : Bool
  deriving DecidableEq, Repr

/-- Result of running a handler: the panic value if it panicked, the context
and the process environment it leaves behind. -/
structure HandlerResult where
  panicked : Option String
  c : Context
  env : Env

/-- The type `gin.HandlerFunc`.  A Go handler receives the context and can also
read and write process-wide state, so the environment is passed explicitly. -/
abbrev HandlerFunc := Context → Env → HandlerResult

/-- Middleware installed by `gin.Default`. -/
inductive Middleware where
  | Logger : Middleware
  | Recovery : Middleware
  deriving DecidableEq, Repr

/-- One entry of the route table: method, path and the handler chain bound to it
(the middleware in force at registration followed by the handler). -/
structure Route where
  method : String
  path : String
  middleware : List Middleware
  handler : HandlerFunc

/-- The type `gin.Engine`, restricted to what `main` touches. -/
structure Engine where
  Handlers : List Middleware
  RedirectTrailingSlash : Bool
  routes : List Route

/-- Whether the process is still alive after `main` has run its statements. -/
inductive Status where
  | serving (addr : String) : Status
  | exited (code : Nat) : Status
  deriving DecidableEq, Repr

/-- What `Engine.Run` does as seen by its caller. -/
inductive RunResult where
  | blocks : RunResult
  | returned (err : String) : RunResult
  deriving DecidableEq, Repr

/-- Observable result of running `main`. -/
structure Outcome where
  proc : Proc
  engine : Engine
  status : Status

/-- A server in operation: the engine handed to `Run` and the process environment. -/
structure Server where
  engine : Engine
  env : Env

/-! ## Library operations -/

/-- Model of `godotenv.loadFile(filename, overload)`: on a read or parse error
return it and touch nothing; otherwise set every pair of the file whose key is
not yet in the environment (or every pair, when `overload`). -/
def godotenv.loadFile (file : Except String EnvMap) (overload : Bool) (env : Env) :
    Option String × Env :=
  match file with
  | .error err => (some err, env)
  | .ok envMap =>
    (none, fun key =>
      match envMap key with
      | some value => if (env key).isNone || overload then some value else env key
      | none => env key)

/-- Model of `godotenv.Load()` with no file names: load `.env` without
overriding variables that are already set; returns the error, if any. -/
def godotenv.Load (file : Except String EnvMap) (p : Proc) : Option String × Proc :=
  let r := godotenv.loadFile file false p.env
  (r.1, { env := r.2, calls := p.calls ++ [Call.godotenvLoad] })

/-- Model of `os.Getenv(key)`: the value of the variable, empty when unset. -/
def os.Getenv (key : String) (p : Proc) : String × Proc :=
  ((p.env key).getD "", { p with calls := p.calls ++ [Call.osGetenv key] })

/-- Model of `gin.Default()`: a new engine with the Logger and Recovery
middleware attached and no routes. -/
def gin.Default (p : Proc) : Engine × Proc :=
  ({ Handlers := [Middleware.Logger, Middleware.Recovery],
     RedirectTrailingSlash := true,
     routes := [] },
   { p with calls := p.calls ++ [Call.ginDefault] })

/-- Model of `(*Engine).GET(relativePath, handler)` on the root group: add a
route for method GET with the current middleware and the handler. -/
def Engine.GET (r : Engine) (relativePath : String) (handler : HandlerFunc) (p : Proc) :
    Engine × Proc :=
  ({ r with routes := r.routes ++
      [{ method := "GET", path := relativePath, middleware := r.Handlers, handler := handler }] },
   { p with calls := p.calls ++ [Call.routerGET relativePath] })

/-- Model of `(*Engine).Run(addr)`: listen and serve on `addr`; either the call
blocks for the rest of the process or it returns an error. -/
def Engine.Run (_r : Engine) (addr : String) (listen : String → Option String) (p : Proc) :
    RunResult × Proc :=
  let p1 : Proc := { p with calls := p.calls ++ [Call.engineRun addr] }
  match listen addr with
  | none => (RunResult.blocks, p1)
  | some err => (RunResult.returned err, p1)

/-- The function `bodyAllowedForStatus` of gin: no body for 1xx, 204 and 304. -/
def bodyAllowedForStatus (status : Int) : Bool :=
  if 100 ≤ status ∧ status ≤ 199 then false
  else if status = 204 then false
  else if status = 304 then false
  else true

/-- Model of `(*Context).JSON(code, obj)` on a context whose header is not yet
written, together with the header write of net/http underneath it.

* `c.Status(code)`: a code above 0 becomes the status to send, any other code
  leaves the status as it is.
* Where the code allows a body, the JSON content type is set and the body is
  written; the first write sends the header, and net/http panics there when the
  status is below 100 or above 999.
* Where the code allows no body, the content type is set and the header is sent;
  a 1xx code other than 101 goes out as an interim response and the final
  status stays as it was.

The call touches nothing but the context: the environment is handed back as it
came. -/
def Context.JSON (c : Context) (code : Int) (obj : H) (env : Env) : HandlerResult :=
  let status : Nat := if 0 < code then code.toNat else c.Writer.status
  if bodyAllowedForStatus code then
    if status < 100 ∨ 999 < status then
      { panicked := some ("invalid WriteHeader code " ++ toString status),
        c := { c with
                Writer := { c.Writer with
                              contentType := some "application/json; charset=utf-8" },
                Written := true },
        env := env }
    else
      { panicked := none,
        c := { c with
                Writer := { status := status,
                            contentType := some "application/json; charset=utf-8",
                            body := Payload.json obj },
                Written := true },
        env := env }
  else
    { panicked := none,
      c := { c with
              Writer := { status := if code = 101 ∨ 199 < code then status else c.Writer.status,
                          contentType := some "application/json; charset=utf-8",
                          body := c.Writer.body },
              Written := true },
      env := env }

/-! ## The program -/

/-- The anonymous function registered for `GET /` in `main`:
`func(c *gin.Context) { c.JSON(200, gin.H{"message": "Hi, Gin server is running!"}) }`.
Its body is the one call of `c.JSON`. -/
def handler : HandlerFunc := fun c env =>
  c.JSON 200 [("message", Value.str "Hi, Gin server is running!")] env

/-- The function `main` of `main.go`, one binding per statement.  The values
returned by `godotenv.Load` and by `Run` are discarded, as in the source; when
`Run` returns, `main` returns and the process exits with status 0. -/
def main (w : World) : Outcome :=
  let p0 : Proc := { env := w.env, calls := [] }
  -- godotenv.Load()
  let p1 := (godotenv.Load w.dotenv p0).2
  -- r := gin.Default()
  let d := gin.Default p1
  -- r.GET("/", func(c *gin.Context) { ... })
  let g := Engine.GET d.1 "/" handler d.2
  -- port := os.Getenv("PORT")
  let e := os.Getenv "PORT" g.2
  let port := e.1
  -- r.Run(":" + port)
  let x := Engine.Run g.1 (":" ++ port) w.listen e.2
  match x.1 with
  | RunResult.blocks => { proc := x.2, engine := g.1, status := Status.serving (":" ++ port) }
  | RunResult.returned _ => { proc := x.2, engine := g.1, status := Status.exited 0 }

/-! ## Serving requests -/

/-- The context gin starts a request with: status 200 pending, nothing written. -/
def Context.fresh (req : GoServer.Request) : Context :=
  { Request := req,
    Writer := { status := 200, contentType := none, body := Payload.empty },
    Written := false }

/-- Route lookup for a table of fixed paths: the first route with this method and path. -/
def Engine.find (r : Engine) (method path : String) : Option Route :=
  r.routes.find? (fun rt => rt.method == method && rt.path == path)

/-- Whether a route of this method exists for the path with a trailing slash
added or removed. -/
def Engine.tsr (r : Engine) (method path : String) : Bool :=
  r.routes.any (fun rt => rt.method == method && (rt.path == path ++ "/" || rt.path ++ "/" == path))

/-- Answer gin gives on its own when no route matches: a redirect when only a
trailing slash differs (301 for GET, 307 otherwise), else 404 with the plain
text `404 page not found`. -/
def Engine.unmatched (r : Engine) (req : Request) : Response :=
  if req.Method != "CONNECT" && req.Path != "/" && r.RedirectTrailingSlash
      && r.tsr req.Method req.Path then
    { status := if req.Method = "GET" then 301 else 307,
      contentType :=
        if req.Method = "GET" ∨ req.Method = "HEAD" then some "text/html; charset=utf-8" else none,
      body := Payload.redirect }
  else
    { status := 404, contentType := some "text/plain", body := Payload.text "404 page not found" }

/-- Model of `(*Engine).ServeHTTP`, gin handling a request net/http passed to it:
run the handler of the matching route on a fresh context; with no matching route
give the default answer.  When the handler panics and the route has the Recovery
middleware, Recovery answers 500 unless the header already counts as written, in
which case the response stays as the handler left it.  An `error` is a panic
that nothing in gin recovered. -/
def Engine.ServeHTTP (r : Engine) (req : Request) (env : Env) : Except String (Response × Env) :=
  match r.find req.Method req.Path with
  | some rt =>
    let res := rt.handler (Context.fresh req) env
    match res.panicked with
    | none => .ok (res.c.Writer, res.env)
    | some msg =>
      if Middleware.Recovery ∈ rt.middleware then
        if res.c.Written then .ok (res.c.Writer, res.env)
        else .ok ({ status := 500, contentType := res.c.Writer.contentType,
                    body := Payload.empty }, res.env)
      else .error msg
  | none => .ok (r.unmatched req, env)

/-- Answer of net/http to `OPTIONS *` (`globalOptionsHandler`): 200 with no body. -/
def globalOptionsAnswer : Response :=
  { status := 200, contentType := none, body := Payload.empty }

/-- Model of the server handling one request (`serverHandler.ServeHTTP` of
net/http with the gin engine as its handler): net/http answers `OPTIONS *`
itself, every other request goes to the engine.  The request target `*` is the
only one that parses to the path `*`. -/
def Server.serve (s : Server) (req : Request) : Except String (Response × Server) :=
  if req.Method = "OPTIONS" ∧ req.Path = "*" then .ok (globalOptionsAnswer, s)
  else
    match s.engine.ServeHTTP req s.env with
    | .ok (resp, env1) => .ok (resp, { s with env := env1 })
    | .error msg => .error msg

/-- Serve a sequence of requests one after the other, collecting the responses. -/
def Server.serveAll (s : Server) : List Request → Except String (List Response × Server)
  | [] => .ok ([], s)
  | req :: rest =>
    match s.serve req with
    | .error msg => .error msg
    | .ok (resp, s1) =>
      match s1.serveAll rest with
      | .error msg => .error msg
      | .ok (resps, s2) => .ok (resp :: resps, s2)

/-- A world used for concrete evaluations: `PORT` unset in the process, a `.env`
file that defines `PORT=3000`, and a listener that opens on every address. -/
def demoWorld : World :=
  { env := fun key => if key = "HOME" then some "/root" else none,
    dotenv := .ok (fun key => if key = "PORT" then some "3000" else none),
    listen := fun _ => none }

/-- A world in which the `.env` file is missing and the port is taken. -/
def busyWorld : World :=
  { env := fun key => if key = "PORT" then some "8080" else none,
    dotenv := .error "open .env: no such file or directory",
    listen := fun _ => some "listen tcp :8080: bind: address already in use" }

/-- The engine `main` builds, written out. -/
def mainEngine : Engine :=
  { Handlers := [Middleware.Logger, Middleware.Recovery],
    RedirectTrailingSlash := true,
    routes := [{ method := "GET", path := "/",
                 middleware := [Middleware.Logger, Middleware.Recovery],
                 handler := handler }] }

/-- Whether a logged call is a route registration. -/
def Call.isRegistration : Call → Bool
  | Call.routerGET _ => true
  | _ => false

/-- Whether a logged call is a call of `Run`. -/
def Call.isRun : Call → Bool
  | Call.engineRun _ => true
  | _ => false

/-- Address of a logged call of `Run`. -/
def Call.runAddr : Call → Option String
  | Call.engineRun addr => some addr
  | _ => none

/-- Addresses `Run` was called with during a run of `main`, in order. -/
def Outcome.runAddrs (o : Outcome) : List String :=
  o.proc.calls.filterMap Call.runAddr

/-! ## Facts about `main` shared by the results below -/

/-- The run of `main` written out: its environment, its calls, its engine and its status. -/
theorem main_cases (w : World) :
    main w =
      { proc :=
          { env := (godotenv.loadFile w.dotenv false w.env).2,
            calls := [Call.godotenvLoad, Call.ginDefault, Call.routerGET "/",
              Call.osGetenv "PORT",
              Call.engineRun (":" ++ ((godotenv.loadFile w.dotenv false w.env).2 "PORT").getD "")] },
        engine := mainEngine,
        status :=
          match w.listen (":" ++ ((godotenv.loadFile w.dotenv false w.env).2 "PORT").getD "") with
          | none =>
            Status.serving (":" ++ ((godotenv.loadFile w.dotenv false w.env).2 "PORT").getD "")
          | some _ => Status.exited 0 } := by
  simp only [main, Engine.Run, os.Getenv, Engine.GET, gin.Default, godotenv.Load]
  cases h : w.listen (":" ++ ((godotenv.loadFile w.dotenv false w.env).2 "PORT").getD "") <;> rfl

/-- The engine `main` builds does not depend on the world. -/
theorem main_engine (w : World) : (main w).engine = mainEngine := by
  rw [main_cases]

/-- The environment after `main` is the initial one with the `.env` file loaded into it. -/
theorem main_env (w : World) :
    (main w).proc.env = (godotenv.loadFile w.dotenv false w.env).2 := by
  rw [main_cases]

/-- The calls `main` makes, in order. -/
theorem main_calls (w : World) :
    (main w).proc.calls =
      [Call.godotenvLoad, Call.ginDefault, Call.routerGET "/", Call.osGetenv "PORT",
       Call.engineRun (":" ++ ((main w).proc.env "PORT").getD "")] := by
  rw [main_cases]

/-- The process keeps serving exactly when the listener opens on the address given to `Run`. -/
theorem main_status (w : World) :
    (main w).status =
      match w.listen (":" ++ ((main w).proc.env "PORT").getD "") with
      | none => Status.serving (":" ++ ((main w).proc.env "PORT").getD "")
      | some _ => Status.exited 0 := by
  rw [main_cases]

/-- A failed read of the file leaves the environment as it is. -/
theorem loadFile_error (err : String) (overload : Bool) (env : Env) :
    godotenv.loadFile (.error err) overload env = (some err, env) := rfl

/-- Lookup in the route table of `main`: only GET `/` is found. -/
theorem find_mainEngine (method path : String) :
    mainEngine.find method path =
      if method = "GET" ∧ path = "/" then
        some { method := "GET", path := "/",
               middleware := [Middleware.Logger, Middleware.Recovery], handler := handler }
      else none := by
  unfold Engine.find mainEngine
  by_cases h : method = "GET" ∧ path = "/"
  · obtain ⟨h1, h2⟩ := h
    subst h1 h2
    rfl
  · rw [if_neg h]
    simp only [List.find?_cons, List.find?_nil]
    have : ("GET" == method && "/" == path) = false := by
      rw [Bool.and_eq_false_iff]
      by_cases hm : method = "GET"
      · right
        exact beq_eq_false_iff_ne.mpr (fun e => h ⟨hm, e.symm⟩)
      · left
        exact beq_eq_false_iff_ne.mpr (fun e => hm e.symm)
    rw [this]

/-- The result of the handler, computed from `Context.JSON` at code 200. -/
theorem handler_eq (c : Context) (env : Env) :
    handler c env =
      { panicked := none,
        c := { Request := c.Request,
               Writer := { status := 200,
                           contentType := some "application/json; charset=utf-8",
                           body := Payload.json
                             [("message", Value.str "Hi, Gin server is running!")] },
               Written := true },
        env := env } := rfl

/-- The call `c.JSON` does panic for a status code that net/http refuses. -/
theorem JSON_invalid_code_panics (c : Context) (obj : H) (env : Env) (code : Int)
    (h : (0 < code ∧ code < 100) ∨ 999 < code) :
    (c.JSON code obj env).panicked.isSome = true := by
  have hpos : 0 < code := by omega
  have hbody : bodyAllowedForStatus code = true := by
    unfold bodyAllowedForStatus
    have h1 : ¬ (100 ≤ code ∧ code ≤ 199) := by omega
    have h2 : ¬ code = 204 := by omega
    have h3 : ¬ code = 304 := by omega
    simp only [h1, h2, h3, if_false]
  have hbad : code.toNat < 100 ∨ 999 < code.toNat := by omega
  unfold Context.JSON
  simp only [hbody, hpos, if_true, hbad]
  rfl

/-- The server of `main` answers GET `/` with the greeting and keeps its state. -/
theorem serve_mainEngine_root (env : Env) (req : Request)
    (hm : req.Method = "GET") (hp : req.Path = "/") :
    Server.serve { engine := mainEngine, env := env } req =
      .ok ({ status := 200,
             contentType := some "application/json; charset=utf-8",
             body := Payload.json [("message", Value.str "Hi, Gin server is running!")] },
           { engine := mainEngine, env := env }) := by
  have hopt : ¬ (req.Method = "OPTIONS" ∧ req.Path = "*") := by
    intro h
    rw [hm] at h
    exact absurd h.1 (by decide)
  unfold Server.serve
  rw [if_neg hopt]
  unfold Engine.ServeHTTP
  simp only [find_mainEngine, hm, hp, and_self, if_true]
  rfl

/-- The server of `main` answers any other request with the answer of net/http
to `OPTIONS *` or the default answer of gin, and keeps its state. -/
theorem serve_mainEngine_other (env : Env) (req : Request)
    (h : ¬ (req.Method = "GET" ∧ req.Path = "/")) :
    Server.serve { engine := mainEngine, env := env } req =
      .ok (if req.Method = "OPTIONS" ∧ req.Path = "*" then globalOptionsAnswer
           else mainEngine.unmatched req,
           { engine := mainEngine, env := env }) := by
  unfold Server.serve
  by_cases hopt : req.Method = "OPTIONS" ∧ req.Path = "*"
  · rw [if_pos hopt, if_pos hopt]
  · rw [if_neg hopt, if_neg hopt]
    unfold Engine.ServeHTTP
    simp only [find_mainEngine, if_neg h]

/-- Serving one request never fails and never changes the server. -/
theorem serve_mainEngine_state (env : Env) (req : Request) :
    ∃ resp, Server.serve { engine := mainEngine, env := env } req =
      .ok (resp, { engine := mainEngine, env := env }) := by
  by_cases h : req.Method = "GET" ∧ req.Path = "/"
  · exact ⟨_, serve_mainEngine_root env req h.1 h.2⟩
  · exact ⟨_, serve_mainEngine_other env req h⟩

/-- Serving any sequence of requests never fails and never changes the server. -/
theorem serveAll_mainEngine_state (env : Env) (reqs : List Request) :
    ∃ resps, Server.serveAll { engine := mainEngine, env := env } reqs =
        .ok (resps, { engine := mainEngine, env := env }) ∧
      resps.length = reqs.length := by
  induction reqs with
  | nil => exact ⟨[], rfl, rfl⟩
  | cons req rest ih =>
    obtain ⟨resp, hresp⟩ := serve_mainEngine_state env req
    obtain ⟨resps, hresps, hlen⟩ := ih
    refine ⟨resp :: resps, ?_, by simp [hlen]⟩
    simp only [Server.serveAll, hresp, hresps]

/-- Loading without overload keeps a variable that is already set. -/
theorem loadFile_keeps_set (file : Except String EnvMap) (env : Env) (key v : String)
    (h : env key = some v) : (godotenv.loadFile file false env).2 key = some v := by
  cases file with
  | error err => exact h
  | ok envMap =>
    simp only [godotenv.loadFile, h, Option.isNone_some, Bool.or_false]
    cases envMap key <;> simp

/-- Loading sets a variable of the file that is not yet set. -/
theorem loadFile_adds_unset (envMap : EnvMap) (env : Env) (key v : String)
    (hunset : env key = none) (hfile : envMap key = some v) :
    (godotenv.loadFile (.ok envMap) false env).2 key = some v := by
  simp [godotenv.loadFile, hunset, hfile]

/-- Loading leaves unset a variable that the file does not define. -/
theorem loadFile_leaves_unset (envMap : EnvMap) (env : Env) (key : String)
    (hunset : env key = none) (hfile : envMap key = none) :
    (godotenv.loadFile (.ok envMap) false env).2 key = none := by
  simp [godotenv.loadFile, hunset, hfile]

/-- The one address `Run` is called with. -/
theorem main_runAddrs (w : World) :
    (main w).runAddrs = [":" ++ ((main w).proc.env "PORT").getD ""] := by
  rw [main_cases]
  rfl

/-! ## Results -/

/-- C1: every request with method GET and path `/`, whatever its query string,
headers and body, whatever the process environment and whatever requests the
server answered before it, is answered by the server `main` starts with status
200 and the JSON object whose single key is `message` with the value
`Hi, Gin server is running!`; the handler writes that same constant response on
every context it is given. -/
theorem get_root_answers_greeting (w : World) (env : Env) (pre : List Request)
    (q : String) (hdr : List (String × String)) (b : String) :
    (∃ resps s, Server.serveAll { engine := (main w).engine, env := env } pre = .ok (resps, s) ∧
      s.serve { Method := "GET", Path := "/", RawQuery := q, Header := hdr, Body := b } =
        .ok ({ status := 200,
               contentType := some "application/json; charset=utf-8",
               body := Payload.json [("message", Value.str "Hi, Gin server is running!")] },
             s)) ∧
    (∀ (c : Context) (e : Env), (handler c e).c.Writer =
        { status := 200,
          contentType := some "application/json; charset=utf-8",
          body := Payload.json [("message", Value.str "Hi, Gin server is running!")] }) := by
  refine ⟨?_, fun c e => by rw [handler_eq]⟩
  rw [main_engine]
  obtain ⟨resps, hresps, _⟩ := serveAll_mainEngine_state env pre
  exact ⟨resps, _, hresps, serve_mainEngine_root env _ rfl rfl⟩

/-- C2: `main` calls `Run` once, with the address `":"` followed by the value
`PORT` has in the environment when it is read, taken as it is: a process started
with `PORT=v` runs on `":" ++ v` for every string `v` and every environment
file (`":8080"` for `8080`), and when `PORT` is unset and the file gives none,
or `PORT` is empty, the address is `":"`. -/
theorem run_address_is_colon_port (env : Env) (file : Except String EnvMap)
    (listen : String → Option String) (v err : String) (envMap : EnvMap) :
    (main { env := env, dotenv := file, listen := listen }).runAddrs =
      [":" ++ ((main { env := env, dotenv := file, listen := listen }).proc.env "PORT").getD ""] ∧
    (main { env := Function.update env "PORT" (some v), dotenv := file,
            listen := listen }).runAddrs = [":" ++ v] ∧
    (main { env := Function.update env "PORT" (some "8080"), dotenv := file,
            listen := listen }).runAddrs = [":8080"] ∧
    (main { env := Function.update env "PORT" (some ""), dotenv := file,
            listen := listen }).runAddrs = [":"] ∧
    (main { env := Function.update env "PORT" none, dotenv := .error err,
            listen := listen }).runAddrs = [":"] ∧
    (main { env := Function.update env "PORT" none,
            dotenv := .ok (Function.update envMap "PORT" none),
            listen := listen }).runAddrs = [":"] := by
  have hset : ∀ u : String,
      (main { env := Function.update env "PORT" (some u), dotenv := file,
              listen := listen }).runAddrs = [":" ++ u] := by
    intro u
    rw [main_runAddrs, main_env,
      loadFile_keeps_set file (Function.update env "PORT" (some u)) "PORT" u
        (Function.update_same _ _ _)]
    rfl
  refine ⟨main_runAddrs _, hset v, hset "8080", hset "", ?_, ?_⟩
  · rw [main_runAddrs, main_env, loadFile_error]
    simp only [Function.update_same]
    rfl
  · rw [main_runAddrs, main_env,
      loadFile_leaves_unset _ _ "PORT" (Function.update_same _ _ _) (Function.update_same _ _ _)]
    rfl

/-- C3: the route table of the engine `main` hands to `Run` has exactly one
entry, method GET and path `/` bound to the greeting handler; `main` makes one
registration call, and a lookup succeeds for GET `/` and for no other method or
path. -/
theorem route_table_single_get_root (w : World) :
    (main w).engine.routes =
      [{ method := "GET", path := "/",
         middleware := [Middleware.Logger, Middleware.Recovery], handler := handler }] ∧
    (main w).proc.calls.filter Call.isRegistration = [Call.routerGET "/"] ∧
    (∀ method path : String,
      ((main w).engine.find method path).isSome = true ↔ (method = "GET" ∧ path = "/")) := by
  refine ⟨by rw [main_engine]; rfl, by rw [main_calls]; rfl, ?_⟩
  intro method path
  rw [main_engine, find_mainEngine]
  by_cases h : method = "GET" ∧ path = "/"
  · simp [h]
  · simp [h]

/-- C4: whatever the load of the environment file gives, success or error, `main`
makes the same five calls in the same order (load, construct the engine,
register GET `/`, read `PORT`, `Run`) with the load made exactly once; when the
load fails the environment is the one the process was started with, the
address is built from it, and the run is the very run obtained with a file that
defines nothing, so the error shows nowhere. -/
theorem dotenv_failure_is_ignored (env : Env) (file : Except String EnvMap)
    (listen : String → Option String) (err : String) :
    (∃ addr, (main { env := env, dotenv := file, listen := listen }).proc.calls =
      [Call.godotenvLoad, Call.ginDefault, Call.routerGET "/", Call.osGetenv "PORT",
       Call.engineRun addr]) ∧
    (main { env := env, dotenv := file, listen := listen }).proc.calls.count
      Call.godotenvLoad = 1 ∧
    (main { env := env, dotenv := .error err, listen := listen }).proc.env = env ∧
    (main { env := env, dotenv := .error err, listen := listen }).proc.calls =
      [Call.godotenvLoad, Call.ginDefault, Call.routerGET "/", Call.osGetenv "PORT",
       Call.engineRun (":" ++ (env "PORT").getD "")] ∧
    (main { env := env, dotenv := .error err, listen := listen }).engine.routes.length = 1 ∧
    (main { env := env, dotenv := .error err, listen := listen }).status =
      (match listen (":" ++ (env "PORT").getD "") with
       | none => Status.serving (":" ++ (env "PORT").getD "")
       | some _ => Status.exited 0) ∧
    main { env := env, dotenv := .error err, listen := listen } =
      main { env := env, dotenv := .ok (fun _ => none), listen := listen } := by
  refine ⟨⟨_, main_calls _⟩, ?_, ?_, ?_, ?_, ?_, ?_⟩
  · rw [main_calls]
    rfl
  · rw [main_env]
    rfl
  · rw [main_calls, main_env]
    rfl
  · rw [main_engine]
    rfl
  · rw [main_status, main_env]
    rfl
  · rw [main_cases, main_cases]
    rfl

/-- C5: when the `Run` call of `main` returns an error (the listener on the
address it was given cannot be opened or fails), `main` returns and the process
ends, with exit status 0 since the error is dropped; `Run` was called once, and
it is the last call `main` makes. -/
theorem run_error_ends_process (w : World) (addr err : String)
    (hcall : Call.engineRun addr ∈ (main w).proc.calls)
    (herr : w.listen addr = some err) :
    (main w).status = Status.exited 0 ∧
    (main w).proc.calls.filter Call.isRun = [Call.engineRun addr] ∧
    (main w).proc.calls.getLast? = some (Call.engineRun addr) ∧
    (main w).proc.calls.count Call.godotenvLoad = 1 := by
  have haddr : addr = ":" ++ ((main w).proc.env "PORT").getD "" := by
    rw [main_calls] at hcall
    simpa using hcall
  refine ⟨?_, ?_, ?_, ?_⟩
  · rw [main_status, ← haddr, herr]
  · rw [main_calls, ← haddr]
    rfl
  · rw [main_calls, ← haddr]
    rfl
  · rw [main_calls]
    rfl

/-- Witness for C5: with `PORT=8080` taken by another process, `main` exits. -/
theorem run_error_ends_process_witness :
    (main busyWorld).status = Status.exited 0 ∧
    (main busyWorld).proc.calls.filter Call.isRun = [Call.engineRun ":8080"] ∧
    (main busyWorld).proc.calls.getLast? = some (Call.engineRun ":8080") ∧
    (main busyWorld).proc.calls.count Call.godotenvLoad = 1 :=
  run_error_ends_process busyWorld ":8080" "listen tcp :8080: bind: address already in use"
    (by decide) rfl

/-- C6: in `main` the load of the environment file comes before the lookup of
`PORT`, and the lookup before `Run`; so when `PORT` is not in the environment
of the process and the file defines it as `v`, `main` reads `v` and runs the
server on `":" ++ v`. -/
theorem dotenv_loaded_before_port_lookup (env : Env) (envMap : EnvMap)
    (listen : String → Option String) (v : String)
    (hunset : env "PORT" = none) (hfile : envMap "PORT" = some v) :
    (main { env := env, dotenv := .ok envMap, listen := listen }).proc.calls =
      [Call.godotenvLoad, Call.ginDefault, Call.routerGET "/", Call.osGetenv "PORT",
       Call.engineRun (":" ++ v)] ∧
    (main { env := env, dotenv := .ok envMap, listen := listen }).proc.calls.indexOf
        Call.godotenvLoad <
      (main { env := env, dotenv := .ok envMap, listen := listen }).proc.calls.indexOf
        (Call.osGetenv "PORT") ∧
    (main { env := env, dotenv := .ok envMap, listen := listen }).proc.env "PORT" = some v ∧
    (main { env := env, dotenv := .ok envMap, listen := listen }).runAddrs = [":" ++ v] := by
  have hport :
      (main { env := env, dotenv := .ok envMap, listen := listen }).proc.env "PORT" = some v := by
    rw [main_env]
    exact loadFile_adds_unset envMap env "PORT" v hunset hfile
  have hcalls := main_calls { env := env, dotenv := .ok envMap, listen := listen }
  rw [hport] at hcalls
  refine ⟨hcalls, ?_, hport, ?_⟩
  · rw [hcalls]
    have h0 : List.indexOf Call.godotenvLoad
        [Call.godotenvLoad, Call.ginDefault, Call.routerGET "/", Call.osGetenv "PORT",
         Call.engineRun (":" ++ (some v).getD "")] = 0 := rfl
    have h3 : List.indexOf (Call.osGetenv "PORT")
        [Call.godotenvLoad, Call.ginDefault, Call.routerGET "/", Call.osGetenv "PORT",
         Call.engineRun (":" ++ (some v).getD "")] = 3 := rfl
    rw [h0, h3]
    decide
  · rw [main_runAddrs, hport]
    rfl

/-- Witness for C6: `PORT` only in the `.env` file, as `3000`. -/
theorem dotenv_loaded_before_port_lookup_witness :
    (main demoWorld).proc.calls =
      [Call.godotenvLoad, Call.ginDefault, Call.routerGET "/", Call.osGetenv "PORT",
       Call.engineRun ":3000"] ∧
    (main demoWorld).proc.calls.indexOf Call.godotenvLoad <
      (main demoWorld).proc.calls.indexOf (Call.osGetenv "PORT") ∧
    (main demoWorld).proc.env "PORT" = some "3000" ∧
    (main demoWorld).runAddrs = [":3000"] :=
  dotenv_loaded_before_port_lookup demoWorld.env
    (fun key => if key = "PORT" then some "3000" else none) demoWorld.listen "3000"
    (by decide) (by decide)

/-- C8: the greeting handler is the one call `c.JSON(200, ...)`.  That call can
panic (net/http refuses a status outside 100..999), but at code 200 it does not:
on every context and in every environment the handler finishes without a
panic, hands back the environment and the request as they were, changes
nothing of the context but its writer, and writes a response that depends on
neither the request, nor the environment, nor what the context held.  Whatever requests the server of `main` answers, one or many, it
answers each without failing, and its route table and environment are
afterwards what they were before. -/
theorem handler_cannot_fail_or_touch_state (c : Context) (env : Env) :
    (handler c env).panicked = none ∧
    (handler c env).env = env ∧
    (handler c env).c.Request = c.Request ∧
    (handler c env).c =
      { Request := c.Request,
        Writer := { status := 200,
                    contentType := some "application/json; charset=utf-8",
                    body := Payload.json [("message", Value.str "Hi, Gin server is running!")] },
        Written := true } ∧
    (∀ (c2 : Context) (env2 : Env), (handler c2 env2).c.Writer = (handler c env).c.Writer) ∧
    (∀ (w : World) (req : Request), ∃ resp,
      Server.serve { engine := (main w).engine, env := env } req =
        .ok (resp, { engine := (main w).engine, env := env })) ∧
    (∀ (w : World) (reqs : List Request), ∃ resps,
      Server.serveAll { engine := (main w).engine, env := env } reqs =
        .ok (resps, { engine := (main w).engine, env := env }) ∧
      resps.length = reqs.length) := by
  refine ⟨?_, ?_, ?_, ?_, ?_, ?_, ?_⟩
  · rw [handler_eq]
  · rw [handler_eq]
  · rw [handler_eq]
  · rw [handler_eq]
  · intro c2 env2
    rw [handler_eq, handler_eq]
  · intro w req
    rw [main_engine]
    exact serve_mainEngine_state env req
  · intro w reqs
    rw [main_engine]
    exact serveAll_mainEngine_state env reqs

end GoServer


